import Mathlib

/-!
# Verification of the solar cleaning analyzer's degradation engine

Shallow embedding of `src/solar_cleaning_analyzer.py`: tables are lists of
structures, floating-point numbers are rationals, timestamps are seconds
since the epoch (naive local time, as in the source).  Pandas `groupby`
is modelled as aggregation over the sorted list of distinct keys, `merge`
with `how='inner'` as a key lookup driven by the left table, and boolean
masks as list filters.
-/

namespace Solar

/-- Seconds timestamp floored to its 30-minute bucket (`dt.floor('30min')`). -/
def floor30 (t : Nat) : Nat := t / 1800 * 1800

/-- The `dt.hour` field of a seconds timestamp. -/
def hourOf (t : Nat) : Nat := t % 86400 / 3600

/-- The `dt.minute` field of a seconds timestamp. -/
def minuteOf (t : Nat) : Nat := t % 3600 / 60

/-- Midnight of the timestamp's calendar date (`dt.date` followed by
`pd.to_datetime`, used by the daily aggregation). -/
def dateStart (t : Nat) : Nat := t / 86400 * 86400

/-- The `SolarSystemConfig` dataclass with its default field values
(lines 31-40 of the source). -/
structure SolarSystemConfig where
  capacity_kwp : ℚ := 10
  panel_efficiency : ℚ := 1/5
  lux_to_irradiance : ℚ := 165
  temp_coefficient : ℚ := -(9/2500)
  reference_temp : ℚ := 25
  noct : ℚ := 45
  max_irradiance : ℚ := 1000
deriving DecidableEq

/-- The module-level `SYSTEM_CONFIG` instance (all defaults). -/
def SYSTEM_CONFIG : SolarSystemConfig := {}

/-- One normalized sensor row as produced by `parse_lux_csv`. -/
structure LuxRow where
  timestamp : Nat
  temperature : ℚ
  humidity : ℚ
  lux : ℚ
  irradiance : ℚ
deriving DecidableEq

/-- One normalized generation row as produced by `parse_inverter_csv`. -/
structure InvRow where
  timestamp : Nat
  actual_kwh : ℚ
  electricity_price : ℚ
deriving DecidableEq

/-- One merged 30-minute interval (output schema of
`merge_sensor_and_inverter_data`). -/
structure MergedRow where
  timestamp : Nat
  temperature : ℚ
  humidity : ℚ
  lux : ℚ
  irradiance : ℚ
  actual_kwh : ℚ
  electricity_price : ℚ
deriving DecidableEq

/-- Arithmetic mean of a column (`Series.mean`); on the empty list the
rational division by zero yields `0`, a case the source never reaches on
the guarded paths. -/
def mean (l : List ℚ) : ℚ := l.sum / l.length

/-- `df['irradiance'] = (df['lux'] / cfg.lux_to_irradiance).clip(upper=cfg.max_irradiance)`
(line 147): the irradiance estimator. -/
def estimateIrradiance (cfg : SolarSystemConfig) (light : ℚ) : ℚ :=
  min (light / cfg.lux_to_irradiance) cfg.max_irradiance

/-- Insert a key into a sorted duplicate-free list of keys, keeping it
sorted and duplicate-free. -/
def insertKey (k : Nat) : List Nat → List Nat
  | [] => [k]
  | a :: l =>
    if k < a then k :: a :: l
    else if k = a then a :: l
    else a :: insertKey k l

/-- The distinct values of a key column in ascending order: the index of a
pandas `groupby` (which sorts its keys). -/
def sortedKeys (l : List Nat) : List Nat := l.foldr insertKey []

/-- The aggregated sensor row of one 30-minute bucket: arithmetic means
over the rows whose floored timestamp is the bucket. -/
def luxRowAt (rows : List LuxRow) (b : Nat) : LuxRow :=
  let grp := rows.filter fun r => floor30 r.timestamp == b
  { timestamp := b
    temperature := mean (grp.map (·.temperature))
    humidity := mean (grp.map (·.humidity))
    lux := mean (grp.map (·.lux))
    irradiance := mean (grp.map (·.irradiance)) }

/-- `lux_df.groupby('interval').agg(mean,mean,mean,mean)` over the floored
timestamps (lines 311-322): one aggregated sensor row per 30-minute bucket. -/
def luxAggregate (rows : List LuxRow) : List LuxRow :=
  (sortedKeys (rows.map fun r => floor30 r.timestamp)).map (luxRowAt rows)

/-- The aggregated generation row of one 30-minute bucket: summed energy
and first price over the rows whose floored timestamp is the bucket. -/
def invRowAt (rows : List InvRow) (b : Nat) : InvRow :=
  let grp := rows.filter fun r => floor30 r.timestamp == b
  { timestamp := b
    actual_kwh := (grp.map (·.actual_kwh)).sum
    electricity_price := ((grp.map (·.electricity_price)).head?).getD 0 }

/-- `inverter_df.groupby('timestamp').agg({'actual_kwh':'sum','electricity_price':'first'})`
over the floored timestamps (lines 326-334). -/
def invAggregate (rows : List InvRow) : List InvRow :=
  (sortedKeys (rows.map fun r => floor30 r.timestamp)).map (invRowAt rows)

/-- The midday-window mask of lines 351-354: hour at least 10, and either
hour below 13 or exactly 13:00. -/
def inWindow (t : Nat) : Bool :=
  decide (10 ≤ hourOf t ∧ (hourOf t < 13 ∨ (hourOf t = 13 ∧ minuteOf t = 0)))

/-- `pd.merge(lux_agg, inverter_agg, on='timestamp', how='inner')`
(lines 339-344): left-driven inner join on the bucket timestamp. -/
def mergeTables (lux : List LuxRow) (inv : List InvRow) : List MergedRow :=
  (luxAggregate lux).filterMap fun la =>
    match (invAggregate inv).find? (fun ia => ia.timestamp == la.timestamp) with
    | some ia =>
        some { timestamp := la.timestamp
               temperature := la.temperature
               humidity := la.humidity
               lux := la.lux
               irradiance := la.irradiance
               actual_kwh := ia.actual_kwh
               electricity_price := ia.electricity_price }
    | none => none

/-- `merge_sensor_and_inverter_data` (lines 260-365), restricted to its
returned DataFrame: aggregate both series to 30-minute buckets, inner-join,
and keep only the midday window. -/
def merge_sensor_and_inverter_data (lux : List LuxRow) (inv : List InvRow) :
    List MergedRow :=
  (mergeTables lux inv).filter fun m => inWindow m.timestamp

/-- The merged row the merger produces for one shared bucket: the sensor
aggregate's means joined with the generation aggregate's summed energy and
first price. -/
def mergedRowAt (lux : List LuxRow) (inv : List InvRow) (b : Nat) : MergedRow :=
  { timestamp := b
    temperature := (luxRowAt lux b).temperature
    humidity := (luxRowAt lux b).humidity
    lux := (luxRowAt lux b).lux
    irradiance := (luxRowAt lux b).irradiance
    actual_kwh := (invRowAt inv b).actual_kwh
    electricity_price := (invRowAt inv b).electricity_price }

/-- A sensor series sampled every second over day `d` (constant readings). -/
def perSecondLuxDay (d : Nat) : List LuxRow :=
  (List.range 86400).map fun i =>
    { timestamp := d * 86400 + i, temperature := 30, humidity := 50,
      lux := 82500, irradiance := 500 }

/-- A generation series sampled every 30 minutes over day `d`. -/
def perHalfHourInvDay (d : Nat) : List InvRow :=
  (List.range 48).map fun k =>
    { timestamp := d * 86400 + 1800 * k, actual_kwh := 5,
      electricity_price := 11/50 }

/-- The 48 half-hour bucket timestamps of day `d`. -/
def dayBuckets (d : Nat) : List Nat := (List.range 48).map fun k => d * 86400 + 1800 * k

/-- `calculate_theoretical_kwh` (lines 372-391). -/
def calculate_theoretical_kwh (cfg : SolarSystemConfig) (irradiance : ℚ)
    (duration_hours : ℚ) : ℚ :=
  max 0 (irradiance / 1000 * cfg.capacity_kwp * duration_hours)

/-- `calculate_performance_ratio` (lines 394-408). -/
def calculate_performance_ratio (actual_kwh theoretical_kwh : ℚ) : ℚ :=
  if theoretical_kwh ≤ 0 then 0 else actual_kwh / theoretical_kwh

/-- `calculate_temp_adjusted_pr` (lines 411-428). -/
def calculate_temp_adjusted_pr (cfg : SolarSystemConfig) (pr temperature : ℚ) : ℚ :=
  let temp_loss_factor := 1 + cfg.temp_coefficient * (temperature - cfg.reference_temp)
  if 0 < temp_loss_factor then pr / temp_loss_factor else pr

/-- `calculate_cell_temperature` (lines 431-441). -/
def calculate_cell_temperature (cfg : SolarSystemConfig) (ambient_temp irradiance : ℚ) : ℚ :=
  ambient_temp + (cfg.noct - 20) * (irradiance / 800)

/-- `calculate_soiling_loss_index` (lines 444-458). -/
def calculate_soiling_loss_index (current_pr baseline_pr : ℚ) : ℚ :=
  if baseline_pr ≤ 0 then 0
  else max 0 ((baseline_pr - current_pr) / baseline_pr * 100)

/-- One row of `merged_data` after `_calculate_interval_performance`
added its derived columns. -/
structure PerfRecord where
  timestamp : Nat
  temperature : ℚ
  humidity : ℚ
  lux : ℚ
  irradiance : ℚ
  actual_kwh : ℚ
  electricity_price : ℚ
  theoretical_kwh : ℚ
  performance_ratio : ℚ
  cell_temp : ℚ
  temp_adjusted_pr : ℚ
  valid_for_analysis : Bool
deriving DecidableEq

/-- `_calculate_interval_performance` (lines 576-606): derive theoretical
output, PR, cell temperature, temperature-adjusted PR and the validity
flag for every merged interval. -/
def calculateIntervalPerformance (cfg : SolarSystemConfig)
    (rows : List MergedRow) : List PerfRecord :=
  rows.map fun r =>
    let theo := calculate_theoretical_kwh cfg r.irradiance (1/2)
    let pr := calculate_performance_ratio r.actual_kwh theo
    let ct := calculate_cell_temperature cfg r.temperature r.irradiance
    { timestamp := r.timestamp
      temperature := r.temperature
      humidity := r.humidity
      lux := r.lux
      irradiance := r.irradiance
      actual_kwh := r.actual_kwh
      electricity_price := r.electricity_price
      theoretical_kwh := theo
      performance_ratio := pr
      cell_temp := ct
      temp_adjusted_pr := calculate_temp_adjusted_pr cfg pr ct
      valid_for_analysis := decide ((50 : ℚ) ≤ r.irradiance) }

/-- One row of the `daily_performance` table. -/
structure DailyRow where
  date : Nat
  temperature : ℚ
  humidity : ℚ
  lux : ℚ
  irradiance : ℚ
  actual_kwh : ℚ
  theoretical_kwh : ℚ
  performance_ratio : ℚ
  temp_adjusted_pr : ℚ
  cell_temp : ℚ
  daily_pr : ℚ
deriving DecidableEq

/-- `_calculate_daily_performance` (lines 608-639): keep only records valid
for analysis, group them by calendar date, aggregate, and recompute the
daily PR from the summed energies. -/
def calculateDailyPerformance (rows : List PerfRecord) : List DailyRow :=
  let valid := rows.filter (·.valid_for_analysis)
  (sortedKeys (valid.map fun r => dateStart r.timestamp)).map fun d =>
    let grp := valid.filter fun r => dateStart r.timestamp == d
    let act := (grp.map (·.actual_kwh)).sum
    let theo := (grp.map (·.theoretical_kwh)).sum
    { date := d
      temperature := mean (grp.map (·.temperature))
      humidity := mean (grp.map (·.humidity))
      lux := mean (grp.map (·.lux))
      irradiance := mean (grp.map (·.irradiance))
      actual_kwh := act
      theoretical_kwh := theo
      performance_ratio := mean (grp.map (·.performance_ratio))
      temp_adjusted_pr := mean (grp.map (·.temp_adjusted_pr))
      cell_temp := mean (grp.map (·.cell_temp))
      daily_pr := if 0 < theo then act / theo else 0 }

/-- The `DegradationAnalysis` dataclass (lines 64-77).  Day counts are
integers; the nullable threshold predictions are `Option ℤ`. -/
structure DegradationAnalysis where
  baseline_pr : ℚ
  current_pr : ℚ
  degradation_percent : ℚ
  degradation_rate_per_day : ℚ
  days_since_baseline : ℤ
  days_to_95_percent : Option ℤ
  days_to_90_percent : Option ℤ
  days_to_85_percent : Option ℤ
  days_to_80_percent : Option ℤ
  recommended_interval_days : ℤ
  soiling_loss_index : ℚ
deriving DecidableEq

/-- `df['date'].min()` over a nonempty column (0 on the empty column,
which the callers guard against). -/
def colMinNat : List Nat → Nat
  | [] => 0
  | x :: xs => xs.foldl Nat.min x

/-- `df['date'].max()` / `max(list)` over a nonempty column. -/
def colMaxNat : List Nat → Nat
  | [] => 0
  | x :: xs => xs.foldl Nat.max x

/-- `analyze_degradation` (lines 641-712) as a function of the cleaning
events and the daily table.  `days_since` uses `Timedelta.days`, a floor
division; `int()` on the positive threshold quotients is a floor; Python's
`days_to_90 if days_to_90 else 14` treats both `None` and `0` as falsy. -/
def analyze_degradation (cleaning_events : List Nat) (daily : List DailyRow) :
    DegradationAnalysis :=
  if daily.isEmpty then
    { baseline_pr := 0, current_pr := 0, degradation_percent := 0
      degradation_rate_per_day := 0, days_since_baseline := 0
      days_to_95_percent := none, days_to_90_percent := none
      days_to_85_percent := none, days_to_80_percent := none
      recommended_interval_days := 14, soiling_loss_index := 0 }
  else
    let baseline_start : Nat :=
      if cleaning_events.isEmpty then colMinNat (daily.map (·.date))
      else colMaxNat cleaning_events
    let baseline_end := baseline_start + 3 * 86400
    let baseline_data := daily.filter fun r =>
      decide (baseline_start ≤ r.date) && decide (r.date ≤ baseline_end)
    let baseline_pr :=
      if baseline_data.isEmpty then
        if 3 ≤ daily.length then mean ((daily.take 3).map (·.daily_pr))
        else mean (daily.map (·.daily_pr))
      else mean (baseline_data.map (·.daily_pr))
    let current_pr :=
      if 3 ≤ daily.length then mean ((daily.reverse.take 3).map (·.daily_pr))
      else ((daily.getLast?).map (·.daily_pr)).getD 0
    let days_since : ℤ :=
      ((colMaxNat (daily.map (·.date)) : ℤ) - (baseline_start : ℤ)).fdiv 86400
    let degradation_percent := calculate_soiling_loss_index current_pr baseline_pr
    let degradation_rate : ℚ :=
      if 0 < days_since then degradation_percent / (days_since : ℚ) else 0
    let days_to : ℚ → Option ℤ := fun target =>
      if degradation_rate ≤ 0 then none else some ⌊target / degradation_rate⌋
    let d90 := days_to 10
    { baseline_pr := baseline_pr
      current_pr := current_pr
      degradation_percent := degradation_percent
      degradation_rate_per_day := degradation_rate
      days_since_baseline := days_since
      days_to_95_percent := days_to 5
      days_to_90_percent := d90
      days_to_85_percent := days_to 15
      days_to_80_percent := days_to 20
      recommended_interval_days :=
        match d90 with
        | some n => if n = 0 then 14 else n
        | none => 14
      soiling_loss_index := degradation_percent }

/-- The slice of `generate_report`'s result (lines 792-800) that the
error-handling claims observe: the success flag, the error message of the
failure branch, and the embedded degradation assessment of the success
branch.  The remaining report fields are not modelled. -/
structure ReportResult where
  success : Bool
  error : Option String
  degradation : Option DegradationAnalysis
deriving DecidableEq

/-- `generate_report` (lines 792-800): the guard on an empty daily table
returns a structured failure; otherwise a successful report embedding the
degradation assessment is built. -/
def generate_report (cleaning_events : List Nat) (daily : List DailyRow) :
    ReportResult :=
  if daily.isEmpty then
    { success := false
      error := some "No data loaded or no valid data for analysis"
      degradation := none }
  else
    { success := true
      error := none
      degradation := some (analyze_degradation cleaning_events daily) }

/-- One entry of `calculate_post_cleaning_recovery`'s result list. -/
structure RecoveryEntry where
  cleaning_date : Nat
  pr_before : ℚ
  pr_after : ℚ
  recovery_percent : ℚ
  kwh_before_avg : ℚ
  kwh_after_avg : ℚ
deriving DecidableEq

/-- The rows of the daily table in the 3 days strictly before a cleaning
event (`cleaning_dt - timedelta(days=3) ≤ date < cleaning_dt`, line 727). -/
def beforeRows (daily : List DailyRow) (c : Nat) : List DailyRow :=
  daily.filter fun r =>
    decide ((c : ℤ) - 3 * 86400 ≤ (r.date : ℤ)) && decide ((r.date : ℤ) < (c : ℤ))

/-- The rows of the daily table in the 3 days strictly after a cleaning
event (`cleaning_dt < date ≤ cleaning_dt + timedelta(days=3)`, line 731). -/
def afterRows (daily : List DailyRow) (c : Nat) : List DailyRow :=
  daily.filter fun r =>
    decide ((c : ℤ) < (r.date : ℤ)) && decide ((r.date : ℤ) ≤ (c : ℤ) + 3 * 86400)

/-- The loop body of `calculate_post_cleaning_recovery` (lines 722-746) for
one cleaning event: `none` exactly when one of the two windows holds no
daily row. -/
def recoveryEntry (daily : List DailyRow) (c : Nat) : Option RecoveryEntry :=
  let before_data := beforeRows daily c
  let after_data := afterRows daily c
  if before_data.isEmpty || after_data.isEmpty then none
  else
    let pr_before := mean (before_data.map (·.daily_pr))
    let pr_after := mean (after_data.map (·.daily_pr))
    some { cleaning_date := c
           pr_before := pr_before
           pr_after := pr_after
           recovery_percent :=
             if 0 < pr_before then (pr_after - pr_before) / pr_before * 100 else 0
           kwh_before_avg := (before_data.map (·.actual_kwh)).sum / before_data.length
           kwh_after_avg := (after_data.map (·.actual_kwh)).sum / after_data.length }

/-- `calculate_post_cleaning_recovery` (lines 714-748). -/
def calculate_post_cleaning_recovery (cleaning_events : List Nat)
    (daily : List DailyRow) : List RecoveryEntry :=
  cleaning_events.filterMap (recoveryEntry daily)

/-! ## Timestamp parsing (`parse_lux_csv.parse_timestamp`, lines 127-143) -/

/-- A parsed calendar timestamp (the result of `pd.to_datetime` on one
value). -/
structure DateTime where
  year : Nat
  month : Nat
  day : Nat
  hour : Nat
  minute : Nat
  second : Nat
deriving DecidableEq

/-- ASCII decimal digit test. -/
def isDigit (c : Char) : Bool := decide ('0' ≤ c) && decide (c ≤ '9')

/-- Value of a digit string. -/
def digitsVal (l : List Char) : Nat :=
  l.foldl (fun n c => 10 * n + (c.toNat - '0'.toNat)) 0

/-- A `strptime` numeric field: 1 to `maxDigits` digits. -/
def parseNum (maxDigits : Nat) (l : List Char) : Option Nat :=
  if l ≠ [] ∧ l.length ≤ maxDigits ∧ l.all isDigit = true then some (digitsVal l)
  else none

/-- Split a character list on a separator character. -/
def splitOnChar (sep : Char) (l : List Char) : List (List Char) :=
  l.foldr (fun c acc =>
    match acc with
    | [] => if c = sep then [[], []] else [[c]]
    | g :: gs => if c = sep then [] :: g :: gs else (c :: g) :: gs) [[]]

/-- Gregorian leap-year rule. -/
def isLeap (y : Nat) : Bool := (y % 4 == 0 && y % 100 != 0) || (y % 400 == 0)

/-- Days in a month, as `strptime` validates them. -/
def daysInMonth (y m : Nat) : Nat :=
  if m = 2 then (if isLeap y then 29 else 28)
  else if m = 4 ∨ m = 6 ∨ m = 9 ∨ m = 11 then 30
  else 31

/-- Construct a timestamp after `strptime`/`datetime` range validation. -/
def mkDateTime (y mo d h mi s : Nat) : Option DateTime :=
  if 1 ≤ mo ∧ mo ≤ 12 ∧ 1 ≤ d ∧ d ≤ daysInMonth y mo ∧ h ≤ 23 ∧ mi ≤ 59 ∧ s ≤ 59 then
    some ⟨y, mo, d, h, mi, s⟩
  else none

/-- Split a value into its date part and its time part on the blank. -/
def splitDateTime (v : List Char) : Option (List Char × List Char) :=
  match splitOnChar ' ' v with
  | [d, t] => some (d, t)
  | _ => none

/-- Parse an `H:M` time part. -/
def parseHM (t : List Char) : Option (Nat × Nat) :=
  match splitOnChar ':' t with
  | [hs, ms] => do
      let h ← parseNum 2 hs
      let m ← parseNum 2 ms
      pure (h, m)
  | _ => none

/-- Parse an `H:M:S` time part. -/
def parseHMS (t : List Char) : Option (Nat × Nat × Nat) :=
  match splitOnChar ':' t with
  | [hs, ms, ss] => do
      let h ← parseNum 2 hs
      let m ← parseNum 2 ms
      let s ← parseNum 2 ss
      pure (h, m, s)
  | _ => none

/-- Parse an `a/b/Y` date part, returning the fields in written order. -/
def parseSlashDate (d : List Char) : Option (Nat × Nat × Nat) :=
  match splitOnChar '/' d with
  | [a, b, y] => do
      let av ← parseNum 2 a
      let bv ← parseNum 2 b
      let yv ← parseNum 4 y
      pure (av, bv, yv)
  | _ => none

/-- Parse a `Y-m-d` date part. -/
def parseDashDate (d : List Char) : Option (Nat × Nat × Nat) :=
  match splitOnChar '-' d with
  | [y, m, dd] => do
      let yv ← parseNum 4 y
      let mv ← parseNum 2 m
      let dv ← parseNum 2 dd
      pure (yv, mv, dv)
  | _ => none

/-- The five timestamp formats of the source's ordered list (line 129-135):
`%m/%d/%Y %H:%M`, `%d/%m/%Y %H:%M`, `%Y-%m-%d %H:%M:%S`, `%Y-%m-%d %H:%M`,
`%m/%d/%Y %H:%M:%S`. -/
inductive TsFormat
  | mdyHM
  | dmyHM
  | ymdHMS
  | ymdHM
  | mdyHMS
deriving DecidableEq

/-- `pd.to_datetime(ts, format=fmt)` for a single value and one of the five
listed formats. -/
def parseWithFormat : TsFormat → List Char → Option DateTime
  | .mdyHM, v => do
      let (dp, tp) ← splitDateTime v
      let (m, d, y) ← parseSlashDate dp
      let (h, mi) ← parseHM tp
      mkDateTime y m d h mi 0
  | .dmyHM, v => do
      let (dp, tp) ← splitDateTime v
      let (d, m, y) ← parseSlashDate dp
      let (h, mi) ← parseHM tp
      mkDateTime y m d h mi 0
  | .ymdHMS, v => do
      let (dp, tp) ← splitDateTime v
      let (y, m, d) ← parseDashDate dp
      let (h, mi, s) ← parseHMS tp
      mkDateTime y m d h mi s
  | .ymdHM, v => do
      let (dp, tp) ← splitDateTime v
      let (y, m, d) ← parseDashDate dp
      let (h, mi) ← parseHM tp
      mkDateTime y m d h mi 0
  | .mdyHMS, v => do
      let (dp, tp) ← splitDateTime v
      let (m, d, y) ← parseSlashDate dp
      let (h, mi, s) ← parseHMS tp
      mkDateTime y m d h mi s

/-- The ordered format list of line 129-135. -/
def tsFormats : List TsFormat :=
  [.mdyHM, .dmyHM, .ymdHMS, .ymdHM, .mdyHMS]

/-- The `for fmt in formats: try ... except: continue` loop of
`parse_timestamp`. -/
def tryFormats (v : List Char) : List TsFormat → Option DateTime
  | [] => none
  | f :: fs =>
    match parseWithFormat f v with
    | some d => some d
    | none => tryFormats v fs

/-- `parse_timestamp` (lines 128-141): try the listed formats on THIS value
in order, then fall back to the generic best-effort parser
(`pd.to_datetime(ts)`, supplied here as a parameter). -/
def parse_timestamp (generic : List Char → Option DateTime) (v : List Char) :
    Option DateTime :=
  match tryFormats v tsFormats with
  | some d => some d
  | none => generic v

/-- `df['timestamp'] = df['timestamp'].apply(parse_timestamp)` (line 143):
the parser is applied to each value independently. -/
def parseTimestampColumn (generic : List Char → Option DateTime)
    (col : List (List Char)) : List (Option DateTime) :=
  col.map (parse_timestamp generic)

/-- Modelled from the spec's words, for comparison with the code: "the
first format that parses every non-null value wins" — one single format is
selected for the whole column, with the generic parser as column-level
fallback. -/
def parseColumnOneFormat (generic : List Char → Option DateTime)
    (col : List (List Char)) : List (Option DateTime) :=
  match tsFormats.find? (fun f => col.all fun v => (parseWithFormat f v).isSome) with
  | some f => col.map (parseWithFormat f)
  | none => col.map generic

/-! ## Concrete tables used by witnesses and counterexamples -/

/-- A sensor table with a single 10:00 sample at full irradiance. -/
def demoLux : List LuxRow :=
  [{ timestamp := 36000, temperature := 30, humidity := 50, lux := 165000,
     irradiance := 1000 }]

/-- A generation table reporting a negative energy value at 10:00. -/
def demoInvNeg : List InvRow :=
  [{ timestamp := 36000, actual_kwh := -1, electricity_price := 11/50 }]

/-- A generation table reporting 5 kWh at 10:00. -/
def demoInvPos : List InvRow :=
  [{ timestamp := 36000, actual_kwh := 5, electricity_price := 11/50 }]

/-- A placeholder performance record for `headD`. -/
def perfDefault : PerfRecord :=
  { timestamp := 0, temperature := 0, humidity := 0, lux := 0, irradiance := 0,
    actual_kwh := 0, electricity_price := 0, theoretical_kwh := 0,
    performance_ratio := 0, cell_temp := 0, temp_adjusted_pr := 0,
    valid_for_analysis := false }

/-- Two valid performance records on the same day whose ratio of summed
energies differs from the mean of their per-interval ratios. -/
def demoDayRecords : List PerfRecord :=
  [{ timestamp := 36000, temperature := 30, humidity := 50, lux := 165000,
     irradiance := 1000, actual_kwh := 1, electricity_price := 11/50,
     theoretical_kwh := 1, performance_ratio := 1, cell_temp := 30,
     temp_adjusted_pr := 1, valid_for_analysis := true },
   { timestamp := 37800, temperature := 30, humidity := 50, lux := 16500,
     irradiance := 100, actual_kwh := 1, electricity_price := 11/50,
     theoretical_kwh := 4, performance_ratio := 1/4, cell_temp := 30,
     temp_adjusted_pr := 1/4, valid_for_analysis := true }]

/-- A placeholder daily row for `headD`. -/
def dailyDefault : DailyRow :=
  { date := 0, temperature := 0, humidity := 0, lux := 0, irradiance := 0,
    actual_kwh := 0, theoretical_kwh := 0, performance_ratio := 0,
    temp_adjusted_pr := 0, cell_temp := 0, daily_pr := 0 }

/-- A daily row at the given date carrying only a daily PR. -/
def prDay (d : Nat) (pr : ℚ) : DailyRow :=
  { date := d, temperature := 0, humidity := 0, lux := 0, irradiance := 0,
    actual_kwh := 0, theoretical_kwh := 0, performance_ratio := 0,
    temp_adjusted_pr := 0, cell_temp := 0, daily_pr := pr }

/-- Four consecutive daily rows: the inclusive 3-day-offset window around the
first date covers all four of them. -/
def fourDayDemo : List DailyRow :=
  [prDay 0 1, prDay 86400 1, prDay 172800 1, prDay 259200 5]

/-- Two daily rows one day apart with total loss, driving the degradation
rate high enough that the 10-percent threshold is predicted in 0 days. -/
def twoDayDemo : List DailyRow :=
  [prDay 0 1, prDay 86400 0]

/-- Three valid days before and three after a cleaning event on day 4, with
mean daily PR 0.70 before and 0.84 after. -/
def recoveryDemo : List DailyRow :=
  [prDay 86400 (17/25), prDay 172800 (7/10), prDay 259200 (18/25),
   prDay 432000 (41/50), prDay 518400 (21/25), prDay 604800 (43/50)]

/-- One day with negative mean PR before a cleaning event and one positive
day after it. -/
def negRecoveryDemo : List DailyRow :=
  [prDay 259200 (-1), prDay 432000 1]

/-- A placeholder recovery entry for `headD`. -/
def recoveryDefault : RecoveryEntry :=
  { cleaning_date := 0, pr_before := 0, pr_after := 0, recovery_percent := 0,
    kwh_before_avg := 0, kwh_after_avg := 0 }

/-- A mixed-format timestamp column: the first value only parses as
day/month (month 13 is invalid), the second parses as month/day under the
list's first format. -/
def demoTsColumn : List (List Char) :=
  [['1','3','/','2','/','2','0','2','5',' ','1','0',':','0','0'],
   ['1','/','2','/','2','0','2','5',' ','1','0',':','0','0']]

/-! ## Helper lemmas -/

/-- The guarded performance ratio is nonnegative whenever the actual energy
is. -/
theorem performance_ratio_nonneg {a t : ℚ} (ha : 0 ≤ a) :
    0 ≤ calculate_performance_ratio a t := by
  unfold calculate_performance_ratio
  split
  · exact le_rfl
  · next h => exact div_nonneg ha (le_of_lt (lt_of_not_le h))

/-- The soiling loss index is nonnegative for any inputs. -/
theorem soiling_loss_nonneg (c b : ℚ) : 0 ≤ calculate_soiling_loss_index c b := by
  unfold calculate_soiling_loss_index
  split
  · exact le_rfl
  · exact le_max_left _ _

/-- The ordered try-loop returns the first format that succeeds. -/
theorem tryFormats_eq_findSome (v : List Char) :
    ∀ fs : List TsFormat,
      tryFormats v fs = fs.findSome? fun f => parseWithFormat f v
  | [] => rfl
  | f :: fs => by
      simp only [tryFormats, List.findSome?]
      cases parseWithFormat f v with
      | none => exact tryFormats_eq_findSome v fs
      | some d => rfl

theorem mem_insertKey {x k : Nat} : ∀ {l : List Nat}, x ∈ insertKey k l ↔ x = k ∨ x ∈ l
  | [] => by simp [insertKey]
  | a :: l => by
      unfold insertKey
      split
      · simp only [List.mem_cons]
      · next hlt =>
        split
        · next heq =>
          subst heq
          simp only [List.mem_cons]
          tauto
        · simp only [List.mem_cons, mem_insertKey]
          tauto

theorem head?_insertKey (k : Nat) : ∀ (l : List Nat),
    (insertKey k l).head? = some (match l with
      | [] => k
      | a :: _ => if k < a then k else a)
  | [] => rfl
  | a :: l => by
      unfold insertKey
      split
      · next hlt => simp [hlt]
      · next hlt =>
        split
        · next heq => simp [hlt]
        · simp [hlt]

theorem chain'_insertKey {k : Nat} : ∀ {l : List Nat},
    l.Chain' (· < ·) → (insertKey k l).Chain' (· < ·)
  | [], _ => List.chain'_singleton k
  | a :: l, h => by
      unfold insertKey
      split
      · next hlt => exact h.cons hlt
      · next hge =>
        split
        · next heq => exact h
        · next hne =>
          have halt : a < k := by omega
          have htail0 : List.Chain' (· < ·) l := h.tail
          have htail : (insertKey k l).Chain' (· < ·) := chain'_insertKey htail0
          refine List.chain'_cons'.mpr ⟨?_, htail⟩
          intro y hy
          rw [head?_insertKey] at hy
          cases l with
          | nil =>
              simp at hy
              omega
          | cons b t =>
              simp at hy
              have hab : a < b := (List.chain'_cons.mp h).1
              split at hy <;> omega

theorem mem_sortedKeys {x : Nat} : ∀ {l : List Nat}, x ∈ sortedKeys l ↔ x ∈ l
  | [] => by simp [sortedKeys]
  | a :: l => by
      show x ∈ insertKey a (sortedKeys l) ↔ _
      rw [mem_insertKey, mem_sortedKeys]
      simp [List.mem_cons]

theorem chain'_sortedKeys : ∀ (l : List Nat), (sortedKeys l).Chain' (· < ·)
  | [] => List.chain'_nil
  | a :: l => chain'_insertKey (chain'_sortedKeys l)

theorem eq_of_chain'_lt_of_mem_iff : ∀ {l₁ l₂ : List Nat},
    l₁.Chain' (· < ·) → l₂.Chain' (· < ·) → (∀ x, x ∈ l₁ ↔ x ∈ l₂) → l₁ = l₂
  | [], [], _, _, _ => rfl
  | [], b :: t₂, _, _, hm => absurd ((hm b).2 (List.mem_cons_self b t₂)) (List.not_mem_nil b)
  | a :: t₁, [], _, _, hm => absurd ((hm a).1 (List.mem_cons_self a t₁)) (List.not_mem_nil a)
  | a :: t₁, b :: t₂, h₁, h₂, hm => by
      have hp₁ := List.chain'_iff_pairwise.mp h₁
      have hp₂ := List.chain'_iff_pairwise.mp h₂
      have hab : a = b := by
        have ha : a ∈ b :: t₂ := (hm a).1 (List.mem_cons_self a t₁)
        have hb : b ∈ a :: t₁ := (hm b).2 (List.mem_cons_self b t₂)
        rcases List.mem_cons.mp ha with h | h
        · exact h
        · have h1 : b < a := List.rel_of_pairwise_cons hp₂ h
          rcases List.mem_cons.mp hb with h' | h'
          · omega
          · have : a < b := List.rel_of_pairwise_cons hp₁ h'
            omega
      subst hab
      have hmt : ∀ x, x ∈ t₁ ↔ x ∈ t₂ := by
        intro x
        constructor
        · intro hx
          have hax : a < x := List.rel_of_pairwise_cons hp₁ hx
          rcases List.mem_cons.mp ((hm x).1 (List.mem_cons_of_mem a hx)) with h | h
          · omega
          · exact h
        · intro hx
          have hax : a < x := List.rel_of_pairwise_cons hp₂ hx
          rcases List.mem_cons.mp ((hm x).2 (List.mem_cons_of_mem a hx)) with h | h
          · omega
          · exact h
      have ht1 : List.Chain' (· < ·) t₁ := h₁.tail
      have ht2 : List.Chain' (· < ·) t₂ := h₂.tail
      exact congrArg (List.cons a) (eq_of_chain'_lt_of_mem_iff ht1 ht2 hmt)



theorem find?_keys (b : Nat) : ∀ (ks : List Nat),
    ks.find? (fun k => k == b) = if b ∈ ks then some b else none
  | [] => by simp
  | a :: ks => by
      by_cases hab : a = b
      · subst hab
        simp [List.find?_cons]
      · rw [List.find?_cons_of_neg _ (by simp [hab])]
        rw [find?_keys b ks]
        simp [List.mem_cons, Ne.symm hab]

theorem find?_map_ts {mk : Nat → InvRow} (hmk : ∀ k, (mk k).timestamp = k)
    (b : Nat) : ∀ (ks : List Nat),
    (ks.map mk).find? (fun ia => ia.timestamp == b) = (ks.find? (fun k => k == b)).map mk
  | [] => rfl
  | a :: ks => by
      by_cases hab : a = b
      · subst hab
        rw [List.map_cons, List.find?_cons_of_pos, List.find?_cons_of_pos] <;>
          simp [hmk]
      · rw [List.map_cons, List.find?_cons_of_neg, List.find?_cons_of_neg,
          find?_map_ts hmk b ks]
        · simp [hab]
        · simp [hmk, hab]

theorem find?_invAggregate (inv : List InvRow) (b : Nat) :
    (invAggregate inv).find? (fun ia => ia.timestamp == b) =
      if b ∈ inv.map (fun r => floor30 r.timestamp) then some (invRowAt inv b) else none := by
  unfold invAggregate
  rw [find?_map_ts (fun k => rfl) b]
  rw [find?_keys]
  by_cases h : b ∈ inv.map fun r => floor30 r.timestamp
  · rw [if_pos (mem_sortedKeys.mpr h), if_pos h]
    rfl
  · rw [if_neg (fun hc => h (mem_sortedKeys.mp hc)), if_neg h]
    rfl

theorem filterMap_propGuard {α β : Type} (p : α → Prop) [DecidablePred p]
    (f : α → β) : ∀ (l : List α),
    (l.filterMap fun a => if p a then some (f a) else none) =
      (l.filter fun a => decide (p a)).map f
  | [] => rfl
  | a :: l => by
      by_cases h : p a <;>
        simp [List.filterMap_cons, List.filter_cons, h, filterMap_propGuard p f l]

theorem mergeTables_eq (lux : List LuxRow) (inv : List InvRow) :
    mergeTables lux inv =
      ((sortedKeys (lux.map fun r => floor30 r.timestamp)).filter fun b =>
        decide (b ∈ inv.map fun r => floor30 r.timestamp)).map (mergedRowAt lux inv) := by
  unfold mergeTables luxAggregate
  rw [List.filterMap_map]
  rw [← filterMap_propGuard]
  congr 1
  funext b
  show (match (invAggregate inv).find? (fun ia => ia.timestamp == (luxRowAt lux b).timestamp) with
    | some ia => some { timestamp := (luxRowAt lux b).timestamp,
                        temperature := (luxRowAt lux b).temperature,
                        humidity := (luxRowAt lux b).humidity,
                        lux := (luxRowAt lux b).lux,
                        irradiance := (luxRowAt lux b).irradiance,
                        actual_kwh := ia.actual_kwh,
                        electricity_price := ia.electricity_price }
    | none => none) =
    if b ∈ inv.map (fun r => floor30 r.timestamp) then some (mergedRowAt lux inv b) else none
  have hts : (luxRowAt lux b).timestamp = b := rfl
  rw [hts, find?_invAggregate]
  by_cases h : b ∈ inv.map fun r => floor30 r.timestamp
  · rw [if_pos h, if_pos h]
    rfl
  · rw [if_neg h, if_neg h]

theorem merge_eq (lux : List LuxRow) (inv : List InvRow) :
    merge_sensor_and_inverter_data lux inv =
      ((sortedKeys (lux.map fun r => floor30 r.timestamp)).filter fun b =>
        inWindow b && decide (b ∈ inv.map fun r => floor30 r.timestamp)).map
        (mergedRowAt lux inv) := by
  unfold merge_sensor_and_inverter_data
  rw [mergeTables_eq]
  rw [List.filter_map]
  rw [List.filter_filter]
  rfl




theorem chain'_dayBuckets (d : Nat) : (dayBuckets d).Chain' (· < ·) := by
  apply List.Pairwise.chain'
  unfold dayBuckets
  rw [List.pairwise_map]
  exact (List.pairwise_lt_range 48).imp (by omega)

theorem lux_buckets_eq (d : Nat) :
    (perSecondLuxDay d).map (fun r => floor30 r.timestamp) =
      (List.range 86400).map fun i => d * 86400 + i / 1800 * 1800 := by
  unfold perSecondLuxDay
  rw [List.map_map]
  apply List.map_congr_left
  intro i hi
  show floor30 (d * 86400 + i) = d * 86400 + i / 1800 * 1800
  unfold floor30
  omega

theorem inv_buckets_eq (d : Nat) :
    (perHalfHourInvDay d).map (fun r => floor30 r.timestamp) = dayBuckets d := by
  unfold perHalfHourInvDay dayBuckets
  rw [List.map_map]
  apply List.map_congr_left
  intro k hk
  show floor30 (d * 86400 + 1800 * k) = d * 86400 + 1800 * k
  unfold floor30
  omega

theorem sortedKeys_lux_day (d : Nat) :
    sortedKeys ((perSecondLuxDay d).map fun r => floor30 r.timestamp) = dayBuckets d := by
  apply eq_of_chain'_lt_of_mem_iff (chain'_sortedKeys _) (chain'_dayBuckets d)
  intro x
  rw [mem_sortedKeys, lux_buckets_eq]
  unfold dayBuckets
  simp only [List.mem_map, List.mem_range]
  constructor
  · rintro ⟨i, hi, rfl⟩
    exact ⟨i / 1800, by omega, by omega⟩
  · rintro ⟨k, hk, rfl⟩
    exact ⟨1800 * k, by omega, by omega⟩

theorem seven_intervals (d : Nat) :
    (merge_sensor_and_inverter_data (perSecondLuxDay d) (perHalfHourInvDay d)).length = 7 := by
  rw [merge_eq, List.length_map, sortedKeys_lux_day, inv_buckets_eq]
  unfold dayBuckets
  rw [List.filter_map, List.length_map]
  have hcong : ∀ k ∈ List.range 48,
      ((fun b => inWindow b &&
          decide (b ∈ (List.range 48).map fun j => d * 86400 + 1800 * j)) ∘
        (fun k => d * 86400 + 1800 * k)) k =
      (fun k => decide (10 ≤ k / 2 ∧ (k / 2 < 13 ∨ (k / 2 = 13 ∧ 30 * (k % 2) = 0)))) k := by
    intro k hk
    rw [List.mem_range] at hk
    have hmem : d * 86400 + 1800 * k ∈ (List.range 48).map fun j => d * 86400 + 1800 * j :=
      List.mem_map.mpr ⟨k, List.mem_range.mpr hk, rfl⟩
    have h1 : decide (d * 86400 + 1800 * k ∈
        (List.range 48).map fun j => d * 86400 + 1800 * j) = true := by
      simpa using hmem
    show (inWindow (d * 86400 + 1800 * k) && _) = _
    rw [h1, Bool.and_true]
    unfold inWindow hourOf minuteOf
    exact decide_eq_decide.mpr (by omega)
  rw [List.filter_congr hcong]
  decide

/-! ## Claim theorems -/

/-- Claim C2 (amended): for every interval of `_calculate_interval_performance`,
the theoretical energy equals `max 0 (irradiance / 1000 * capacity * 0.5)` and
is nonnegative, the performance ratio equals `actual / theoretical` when the
theoretical energy is positive and `0` otherwise (total, no division error),
and the performance ratio is nonnegative whenever the interval's actual
energy is nonnegative.  (The unconditional nonnegativity stated by the claim
fails for negative reported energy, see the counterexample.) -/
theorem interval_performance_formulas (cfg : SolarSystemConfig)
    (rows : List MergedRow) (r : PerfRecord)
    (hr : r ∈ calculateIntervalPerformance cfg rows) :
    r.theoretical_kwh = max 0 (r.irradiance / 1000 * cfg.capacity_kwp * (1/2)) ∧
    0 ≤ r.theoretical_kwh ∧
    r.performance_ratio =
      (if r.theoretical_kwh ≤ 0 then 0 else r.actual_kwh / r.theoretical_kwh) ∧
    (0 ≤ r.actual_kwh → 0 ≤ r.performance_ratio) := by
  rcases List.mem_map.mp hr with ⟨m, _, rfl⟩
  exact ⟨rfl, le_max_left _ _, rfl, fun ha => performance_ratio_nonneg ha⟩

/-- Claim C2, witness: the single merged 10:00 interval with 5 kWh actual
energy has a nonnegative performance ratio. -/
theorem interval_performance_formulas_witness :
    0 ≤ ((calculateIntervalPerformance SYSTEM_CONFIG
      (merge_sensor_and_inverter_data demoLux demoInvPos)).headD perfDefault).performance_ratio :=
  (interval_performance_formulas SYSTEM_CONFIG
    (merge_sensor_and_inverter_data demoLux demoInvPos) _
    (by norm_num [calculateIntervalPerformance, merge_sensor_and_inverter_data, mergeTables,
      luxAggregate, invAggregate, luxRowAt, invRowAt, sortedKeys, insertKey, floor30, inWindow, hourOf, minuteOf,
      mean, demoLux, demoInvPos, demoInvNeg, SYSTEM_CONFIG, calculate_theoretical_kwh,
      calculate_performance_ratio, calculate_cell_temperature, calculate_temp_adjusted_pr,
      List.filter, List.find?, List.filterMap])).2.2.2
    (by norm_num [calculateIntervalPerformance, merge_sensor_and_inverter_data, mergeTables,
      luxAggregate, invAggregate, luxRowAt, invRowAt, sortedKeys, insertKey, floor30, inWindow, hourOf, minuteOf,
      mean, demoLux, demoInvPos, demoInvNeg, SYSTEM_CONFIG, calculate_theoretical_kwh,
      calculate_performance_ratio, calculate_cell_temperature, calculate_temp_adjusted_pr,
      List.filter, List.find?, List.filterMap])

/-- Claim C2, counterexample: a merged interval built from a negative
reported energy has performance ratio `-1/5 < 0`, refuting the claim's
unconditional `performance_ratio ≥ 0`. -/
theorem interval_negative_pr_counterexample :
    ((calculateIntervalPerformance SYSTEM_CONFIG
        (merge_sensor_and_inverter_data demoLux demoInvNeg)).map
      (·.performance_ratio)) = [-(1/5)] ∧ ¬ (0 ≤ (-(1/5) : ℚ)) := by
  constructor
  · norm_num [calculateIntervalPerformance, merge_sensor_and_inverter_data, mergeTables,
      luxAggregate, invAggregate, luxRowAt, invRowAt, sortedKeys, insertKey, floor30, inWindow, hourOf, minuteOf,
      mean, demoLux, demoInvPos, demoInvNeg, SYSTEM_CONFIG, calculate_theoretical_kwh,
      calculate_performance_ratio, calculate_cell_temperature, calculate_temp_adjusted_pr,
      List.filter, List.find?, List.filterMap]
  · norm_num

/-- Claim C3: for every light-level input ≥ 0 the estimated irradiance
equals `min (light / calibration_factor) max_irradiance` and hence never
exceeds the configured ceiling. -/
theorem irradiance_estimate_clamped (cfg : SolarSystemConfig) (light : ℚ)
    (h : 0 ≤ light) :
    estimateIrradiance cfg light =
      min (light / cfg.lux_to_irradiance) cfg.max_irradiance ∧
    estimateIrradiance cfg light ≤ cfg.max_irradiance :=
  ⟨rfl, min_le_right _ _⟩

/-- Claim C3, witness: 330 light units under the default configuration. -/
theorem irradiance_estimate_clamped_witness :
    estimateIrradiance SYSTEM_CONFIG 330 =
      min (330 / SYSTEM_CONFIG.lux_to_irradiance) SYSTEM_CONFIG.max_irradiance ∧
    estimateIrradiance SYSTEM_CONFIG 330 ≤ SYSTEM_CONFIG.max_irradiance :=
  irradiance_estimate_clamped SYSTEM_CONFIG 330 (by norm_num)

/-- Claim C4: daily aggregation uses only records valid for analysis
(irradiance ≥ 50), each daily row's energies are the sums over that date's
valid records, the daily PR is the ratio of those sums (0 when the
theoretical sum is not positive), and on a concrete day the ratio of sums
(2/5) differs from the mean of the per-interval ratios (5/8). -/
theorem daily_ratio_of_sums :
    (∀ rows : List PerfRecord,
      calculateDailyPerformance rows =
        calculateDailyPerformance (rows.filter (·.valid_for_analysis))) ∧
    (∀ rows : List PerfRecord, ∀ d ∈ calculateDailyPerformance rows,
      d.actual_kwh = (((rows.filter (·.valid_for_analysis)).filter
          fun r => dateStart r.timestamp == d.date).map (·.actual_kwh)).sum ∧
      d.theoretical_kwh = (((rows.filter (·.valid_for_analysis)).filter
          fun r => dateStart r.timestamp == d.date).map (·.theoretical_kwh)).sum ∧
      d.daily_pr =
        (if 0 < d.theoretical_kwh then d.actual_kwh / d.theoretical_kwh else 0)) ∧
    ((calculateDailyPerformance demoDayRecords).map (·.daily_pr) = [2/5] ∧
      mean (demoDayRecords.map (·.performance_ratio)) = 5/8 ∧ ((2:ℚ)/5 ≠ 5/8)) := by
  refine ⟨fun rows => ?_, fun rows d hd => ?_,
    by norm_num [calculateDailyPerformance, sortedKeys, insertKey, dateStart, mean,
      demoDayRecords, List.filter],
    by norm_num [mean, demoDayRecords], by norm_num⟩
  · simp only [calculateDailyPerformance, List.filter_filter, Bool.and_self]
  · rcases List.mem_map.mp hd with ⟨b, _, rfl⟩
    exact ⟨rfl, rfl, rfl⟩

/-- Claim C4, witness: the daily PR of the concrete demo day equals the
guarded ratio of its summed energies. -/
theorem daily_ratio_of_sums_witness :
    ((calculateDailyPerformance demoDayRecords).headD dailyDefault).daily_pr =
      (if 0 < ((calculateDailyPerformance demoDayRecords).headD dailyDefault).theoretical_kwh
       then ((calculateDailyPerformance demoDayRecords).headD dailyDefault).actual_kwh /
         ((calculateDailyPerformance demoDayRecords).headD dailyDefault).theoretical_kwh
       else 0) :=
  (daily_ratio_of_sums.2.1 demoDayRecords _
    (by norm_num [calculateDailyPerformance, sortedKeys, insertKey, dateStart, mean,
      demoDayRecords, List.filter])).2.2

/-- Claim C5 (amended): for a nonempty daily table the baseline anchor is
the latest cleaning event, else the table's minimum date; the baseline PR is
the mean daily PR over the rows whose date lies in the inclusive window
`[anchor, anchor + 3 days]` (up to four calendar days), falling back to the
first `min 3 n` rows when that window is empty; the current PR is the mean
over the last 3 rows when at least 3 exist, else the last row's PR. -/
theorem degradation_baseline_window (events : List Nat) (daily : List DailyRow)
    (h : daily ≠ []) :
    (analyze_degradation events daily).baseline_pr =
      (let anchor := if events.isEmpty then colMinNat (daily.map (·.date))
                     else colMaxNat events
       let bdata := daily.filter fun r =>
         decide (anchor ≤ r.date) && decide (r.date ≤ anchor + 3 * 86400)
       if bdata.isEmpty then
         if 3 ≤ daily.length then mean ((daily.take 3).map (·.daily_pr))
         else mean (daily.map (·.daily_pr))
       else mean (bdata.map (·.daily_pr))) ∧
    (analyze_degradation events daily).current_pr =
      (if 3 ≤ daily.length then mean ((daily.reverse.take 3).map (·.daily_pr))
       else ((daily.getLast?).map (·.daily_pr)).getD 0) := by
  cases daily with
  | nil => exact absurd rfl h
  | cons a l => exact ⟨rfl, rfl⟩

/-- Claim C5, witness: on the four-day table the aggregate window rule gives
baseline PR 2 (the mean over all four rows). -/
theorem degradation_baseline_window_witness :
    (analyze_degradation [] fourDayDemo).baseline_pr = 2 :=
  ((degradation_baseline_window [] fourDayDemo
      (by unfold fourDayDemo; exact List.cons_ne_nil _ _)).1).trans
    (by norm_num [fourDayDemo, prDay, colMinNat, colMaxNat, mean, List.filter])

/-- Claim C5, counterexample: on four consecutive days with PRs 1,1,1,5 and
no cleaning events the code's baseline PR is 2 — the mean over the four rows
of the inclusive `[anchor, anchor+3 days]` window — while the mean over the
3 days beginning at the anchor is 1. -/
theorem baseline_three_day_counterexample :
    (analyze_degradation [] fourDayDemo).baseline_pr = 2 ∧
    mean ((fourDayDemo.take 3).map (·.daily_pr)) = 1 ∧ ((2:ℚ) ≠ 1) := by
  refine ⟨by norm_num [analyze_degradation, fourDayDemo, prDay, colMinNat, colMaxNat,
    mean, calculate_soiling_loss_index, List.filter],
    by norm_num [mean, fourDayDemo, prDay], by norm_num⟩

/-- The degradation rate expression is nonnegative when the loss is. -/
theorem rate_nonneg_aux {L : ℚ} {D : ℤ} (hL : 0 ≤ L) :
    0 ≤ if 0 < D then L / (D : ℚ) else 0 := by
  split
  · next hD => exact div_nonneg hL (by exact_mod_cast hD.le)
  · exact le_rfl

set_option maxHeartbeats 1600000 in
/-- Claim C6 (amended): the soiling loss index is the guarded
`max 0 ((baseline−current)/baseline*100)` (0 for non-positive baseline) and
is nonnegative; the rate is loss divided by elapsed days when the elapsed
days are positive and 0 otherwise; each threshold prediction is
`some ⌊X / rate⌋` when the rate is positive and `none` otherwise; the
recommended interval is the 10-percent prediction except that both `none`
and a zero-day prediction fall back to the default 14. -/
theorem degradation_rate_and_thresholds (events : List Nat)
    (daily : List DailyRow) (h : daily ≠ []) :
    (analyze_degradation events daily).soiling_loss_index =
      calculate_soiling_loss_index (analyze_degradation events daily).current_pr
        (analyze_degradation events daily).baseline_pr ∧
    0 ≤ (analyze_degradation events daily).soiling_loss_index ∧
    (analyze_degradation events daily).degradation_rate_per_day =
      (if 0 < (analyze_degradation events daily).days_since_baseline then
        (analyze_degradation events daily).soiling_loss_index /
          ((analyze_degradation events daily).days_since_baseline : ℚ)
      else 0) ∧
    0 ≤ (analyze_degradation events daily).degradation_rate_per_day ∧
    (analyze_degradation events daily).days_to_95_percent =
      (if (analyze_degradation events daily).degradation_rate_per_day ≤ 0 then none
       else some ⌊(5:ℚ) / (analyze_degradation events daily).degradation_rate_per_day⌋) ∧
    (analyze_degradation events daily).days_to_90_percent =
      (if (analyze_degradation events daily).degradation_rate_per_day ≤ 0 then none
       else some ⌊(10:ℚ) / (analyze_degradation events daily).degradation_rate_per_day⌋) ∧
    (analyze_degradation events daily).days_to_85_percent =
      (if (analyze_degradation events daily).degradation_rate_per_day ≤ 0 then none
       else some ⌊(15:ℚ) / (analyze_degradation events daily).degradation_rate_per_day⌋) ∧
    (analyze_degradation events daily).days_to_80_percent =
      (if (analyze_degradation events daily).degradation_rate_per_day ≤ 0 then none
       else some ⌊(20:ℚ) / (analyze_degradation events daily).degradation_rate_per_day⌋) ∧
    (analyze_degradation events daily).recommended_interval_days =
      (match (analyze_degradation events daily).days_to_90_percent with
       | some n => if n = 0 then 14 else n
       | none => 14) := by
  cases daily with
  | nil => exact absurd rfl h
  | cons a l =>
      refine ⟨rfl, soiling_loss_nonneg _ _, rfl, ?_, rfl, rfl, rfl, rfl, rfl⟩
      exact rate_nonneg_aux (soiling_loss_nonneg _ _)

/-- Claim C6, witness: the degradation rate on the two-day demo table is
nonnegative. -/
theorem degradation_rate_and_thresholds_witness :
    0 ≤ (analyze_degradation [] twoDayDemo).degradation_rate_per_day :=
  (degradation_rate_and_thresholds [] twoDayDemo
    (by unfold twoDayDemo; exact List.cons_ne_nil _ _)).2.2.2.1

/-- Claim C6, counterexample: on the two-day demo the 10-percent-loss
prediction is determinate (`some 0`), yet the recommended interval is the
fallback 14 — Python's truthiness test treats the 0-day prediction like
`None` — refuting "falls back … exactly when that prediction is
indeterminate". -/
theorem recommended_interval_counterexample :
    (analyze_degradation [] twoDayDemo).days_to_90_percent = some 0 ∧
    (analyze_degradation [] twoDayDemo).recommended_interval_days = 14 ∧
    ((14:ℤ) ≠ 0) := by
  refine ⟨by norm_num [analyze_degradation, twoDayDemo, prDay, colMinNat, colMaxNat,
    mean, calculate_soiling_loss_index, List.filter, Int.fdiv],
    by norm_num [analyze_degradation, twoDayDemo, prDay, colMinNat, colMaxNat,
    mean, calculate_soiling_loss_index, List.filter, Int.fdiv], by norm_num⟩

/-- Claim C7: with an empty daily table the degradation analyzer returns the
fully populated zero/indeterminate assessment with the default 14-day
interval, and report generation returns a structured failure (success false
plus a message) instead of raising. -/
theorem empty_daily_graceful :
    (∀ events : List Nat,
      analyze_degradation events [] =
        { baseline_pr := 0, current_pr := 0, degradation_percent := 0
          degradation_rate_per_day := 0, days_since_baseline := 0
          days_to_95_percent := none, days_to_90_percent := none
          days_to_85_percent := none, days_to_80_percent := none
          recommended_interval_days := 14, soiling_loss_index := 0 }) ∧
    (∀ events : List Nat,
      (generate_report events []).success = false ∧
      (generate_report events []).error =
        some "No data loaded or no valid data for analysis") :=
  ⟨fun _ => rfl, fun _ => ⟨rfl, rfl⟩⟩

/-- Claim C8 (amended): the recovery analyzer emits one entry per cleaning
event via the per-event rule; an event whose 3-day before- or after-window
holds no daily row is skipped (`none`), never defaulted; an emitted entry
carries the mean daily PRs of the two windows and the recovery percent
`(after − before)/before × 100` guarded to 0 for a non-positive before-PR;
the 0.70 → 0.84 scenario yields exactly 20 percent. -/
theorem recovery_characterization :
    (∀ (events : List Nat) (daily : List DailyRow),
      calculate_post_cleaning_recovery events daily =
        events.filterMap (recoveryEntry daily)) ∧
    (∀ (daily : List DailyRow) (c : Nat),
      beforeRows daily c = [] ∨ afterRows daily c = [] →
        recoveryEntry daily c = none) ∧
    (∀ (daily : List DailyRow) (c : Nat) (e : RecoveryEntry),
      recoveryEntry daily c = some e →
        e.pr_before = mean ((beforeRows daily c).map (·.daily_pr)) ∧
        e.pr_after = mean ((afterRows daily c).map (·.daily_pr)) ∧
        e.recovery_percent =
          (if 0 < e.pr_before then (e.pr_after - e.pr_before) / e.pr_before * 100
           else 0)) ∧
    ((calculate_post_cleaning_recovery [345600] recoveryDemo).map
        (·.recovery_percent) = [20]) := by
  refine ⟨fun _ _ => rfl, fun daily c hempty => ?_, fun daily c e he => ?_,
    by norm_num [calculate_post_cleaning_recovery, recoveryEntry, beforeRows, afterRows,
      recoveryDemo, negRecoveryDemo, prDay, mean, List.filter, List.filterMap]⟩
  · have hcond : ((beforeRows daily c).isEmpty || (afterRows daily c).isEmpty) = true := by
      rcases hempty with h1 | h1 <;> simp [h1]
    simp [recoveryEntry, hcond]
  · simp only [recoveryEntry] at he
    split at he
    · cases he
    · obtain rfl : _ = e := Option.some.inj he
      exact ⟨rfl, rfl, rfl⟩

/-- Claim C8, witness: the entry emitted for the day-4 cleaning event of the
recovery scenario carries the before-window mean as its before-PR. -/
theorem recovery_characterization_witness :
    ((calculate_post_cleaning_recovery [345600] recoveryDemo).headD
        recoveryDefault).pr_before =
      mean ((beforeRows recoveryDemo 345600).map (·.daily_pr)) :=
  (recovery_characterization.2.2.1 recoveryDemo 345600 _
    (by norm_num [calculate_post_cleaning_recovery, recoveryEntry, beforeRows, afterRows,
      recoveryDemo, negRecoveryDemo, prDay, mean, List.filter, List.filterMap])).1

/-- Claim C8, counterexample: with a before-window mean PR of −1 and an
after-window mean PR of 1 the code reports recovery 0, while the claim's
unguarded formula gives −200. -/
theorem recovery_guard_counterexample :
    ((calculate_post_cleaning_recovery [345600] negRecoveryDemo).map
        (·.pr_before) = [-1]) ∧
    ((calculate_post_cleaning_recovery [345600] negRecoveryDemo).map
        (·.pr_after) = [1]) ∧
    ((calculate_post_cleaning_recovery [345600] negRecoveryDemo).map
        (·.recovery_percent) = [0]) ∧
    (((1:ℚ) - (-1)) / (-1) * 100 = -200) ∧ ((0:ℚ) ≠ -200) := by
  refine ⟨by norm_num [calculate_post_cleaning_recovery, recoveryEntry, beforeRows, afterRows,
      recoveryDemo, negRecoveryDemo, prDay, mean, List.filter, List.filterMap], by norm_num [calculate_post_cleaning_recovery, recoveryEntry, beforeRows, afterRows,
      recoveryDemo, negRecoveryDemo, prDay, mean, List.filter, List.filterMap],
    by norm_num [calculate_post_cleaning_recovery, recoveryEntry, beforeRows, afterRows,
      recoveryDemo, negRecoveryDemo, prDay, mean, List.filter, List.filterMap], by norm_num, by norm_num⟩

/-- Claim C10: the temperature adjustment is total — it returns the input
PR unchanged whenever the temperature loss factor is not positive, and
divides by the factor only when the factor is strictly positive. -/
theorem temp_adjustment_total (cfg : SolarSystemConfig) (pr temperature : ℚ) :
    (1 + cfg.temp_coefficient * (temperature - cfg.reference_temp) ≤ 0 →
      calculate_temp_adjusted_pr cfg pr temperature = pr) ∧
    (0 < 1 + cfg.temp_coefficient * (temperature - cfg.reference_temp) →
      calculate_temp_adjusted_pr cfg pr temperature =
        pr / (1 + cfg.temp_coefficient * (temperature - cfg.reference_temp))) := by
  constructor <;> intro h <;>
    simp [calculate_temp_adjusted_pr, h, not_lt.mpr]

/-- Claim C10, witness: with the default configuration at 400 °C cell
temperature the loss factor is −0.35 ≤ 0 and the PR 7 is returned
unchanged. -/
theorem temp_adjustment_total_witness :
    calculate_temp_adjusted_pr SYSTEM_CONFIG 7 400 = 7 :=
  (temp_adjustment_total SYSTEM_CONFIG 7 400).1 (by norm_num [SYSTEM_CONFIG])

/-- Claim C9 (amended): timestamp parsing tries the fixed ordered format
list for each value independently — per value, the first format that parses
that value wins, and only a value no listed format matches is handed to the
generic best-effort parser; the column is the per-value map of this parser,
and on the mixed demo column two different formats win for the two values. -/
theorem timestamp_per_value_first_format (generic : List Char → Option DateTime) :
    (∀ v : List Char,
      parse_timestamp generic v =
        match tsFormats.findSome? (fun f => parseWithFormat f v) with
        | some d => some d
        | none => generic v) ∧
    (∀ col : List (List Char),
      parseTimestampColumn generic col = col.map (parse_timestamp generic)) ∧
    parseTimestampColumn (fun _ => none) demoTsColumn =
      [some ⟨2025, 2, 13, 10, 0, 0⟩, some ⟨2025, 1, 2, 10, 0, 0⟩] := by
  refine ⟨fun v => ?_, fun col => rfl, by decide⟩
  unfold parse_timestamp
  rw [tryFormats_eq_findSome]

/-- Claim C9, counterexample: on the mixed demo column the code parses the
second value with the list's first format (January 2) while the
whole-column rule of the claim selects the second format for every value
(February 1); no single listed format reproduces the code's column. -/
theorem column_format_selection_counterexample :
    parseTimestampColumn (fun _ => none) demoTsColumn =
      [some ⟨2025, 2, 13, 10, 0, 0⟩, some ⟨2025, 1, 2, 10, 0, 0⟩] ∧
    parseColumnOneFormat (fun _ => none) demoTsColumn =
      [some ⟨2025, 2, 13, 10, 0, 0⟩, some ⟨2025, 2, 1, 10, 0, 0⟩] ∧
    parseTimestampColumn (fun _ => none) demoTsColumn ≠
      parseColumnOneFormat (fun _ => none) demoTsColumn ∧
    (tsFormats.all fun f =>
      decide (demoTsColumn.map (parseWithFormat f) ≠
        parseTimestampColumn (fun _ => none) demoTsColumn)) = true := by
  refine ⟨by decide, by decide, by decide, by decide⟩

/-- Claim C1: the merger floors every row's timestamp to its 30-minute
bucket, aggregates sensor rows per bucket by arithmetic means, aggregates
generation rows per bucket by summing energy and taking the first price,
inner-joins on the shared bucket timestamps (buckets present in only one
series are dropped), and retains exactly the buckets inside the
[10:00, 13:00] window; a per-second sensor day joined with a per-30-minute
generation day yields exactly the 7 intervals 10:00, 10:30, ..., 13:00. -/
theorem merge_buckets_join_window_seven :
    (∀ (lux : List LuxRow) (inv : List InvRow),
      merge_sensor_and_inverter_data lux inv =
        ((sortedKeys (lux.map fun r => floor30 r.timestamp)).filter fun b =>
          inWindow b && decide (b ∈ inv.map fun r => floor30 r.timestamp)).map
          (mergedRowAt lux inv)) ∧
    (∀ d : Nat,
      (merge_sensor_and_inverter_data (perSecondLuxDay d)
        (perHalfHourInvDay d)).length = 7) :=
  ⟨merge_eq, seven_intervals⟩

end Solar
